import Mathlib

/-!
Verification of the FindMe BLE GATT peripheral (FindMeServer.py).

Shallow embedding: each Python class becomes a Lean structure, each method a
pure function on that structure.  D-Bus variant values are a tagged union
(`PropValue`).  The only mutation in the source (`self.notifying`) becomes
explicit state passing; the only outbound effect (`PropertiesChanged`) becomes
a returned list of events.  A Python exception (e.g. `dbus.Byte` rejecting a
code point above 255) is modelled as `none`.
-/

namespace FindMe

set_option linter.unusedVariables false

/-- Tagged union for D-Bus variant values appearing in property maps
(strings, booleans, object paths, arrays of paths, arrays of strings,
byte arrays). -/
inductive PropValue where
  | str (s : String)
  | bool (b : Bool)
  | path (p : String)
  | paths (ps : List String)
  | strs (ss : List String)
  | bytes (bs : List Nat)
  deriving DecidableEq, Repr

/-- Modelled from the spec: the `constants` module is not under src/.  The
GATT service interface name; no claim depends on the concrete string. -/
def GATT_SERVICE_IFACE : String := "org.bluez.GattService1"

/-- Modelled from the spec: the `constants` module is not under src/.  The
GATT characteristic interface name; no claim depends on the concrete string. -/
def GATT_CHARACTERISTIC_IFACE : String := "org.bluez.GattCharacteristic1"

/-- Modelled from the spec: Immediate Alert Service UUID constant from the
external `constants` module; no claim depends on the concrete string. -/
def IAS_UUID : String := "1802"

/-- Modelled from the spec: Alert Level characteristic UUID constant from the
external `constants` module; no claim depends on the concrete string. -/
def ALERT_LEVEL_UUID : String := "2A06"

/-- State of `AlertLevelCharacteristic` (FindMeServer.py, `__init__`):
object path, UUID, flags, owning-service path and the single mutable
field `notifying`. -/
structure AlertLevelCharacteristic where
  path : String
  uuid : String
  flags : List String
  servicePath : String
  notifying : Bool
  deriving DecidableEq, Repr

/-- One emitted `PropertiesChanged` D-Bus signal: interface name, changed
properties map, invalidated property names. -/
structure PropertiesChangedEvent where
  interface : String
  changed : List (String × PropValue)
  invalidated : List String
  deriving DecidableEq, Repr

/-- `AlertLevelCharacteristic.__init__`: path is `service.get_path()/char{index}`,
flags are `write-without-response` and `notify`, `notifying` starts `False`. -/
def AlertLevelCharacteristic.init (index : Nat) (servicePath : String) :
    AlertLevelCharacteristic :=
  { path := servicePath ++ "/char" ++ toString index,
    uuid := ALERT_LEVEL_UUID,
    flags := ["write-without-response", "notify"],
    servicePath := servicePath,
    notifying := false }

/-- `AlertLevelCharacteristic.get_properties`: the characteristic interface
mapped to UUID, owning service path, flags and the notifying flag. -/
def AlertLevelCharacteristic.get_properties (c : AlertLevelCharacteristic) :
    List (String × List (String × PropValue)) :=
  [(GATT_CHARACTERISTIC_IFACE,
    [("UUID", PropValue.str c.uuid),
     ("Service", PropValue.path c.servicePath),
     ("Flags", PropValue.strs c.flags),
     ("Notifying", PropValue.bool c.notifying)])]

/-- `dbus.Byte(ord(c))`: yields the code point when it fits in one byte,
raises (modelled `none`) otherwise. -/
def byteOfChar (c : Char) : Option Nat :=
  if c.toNat < 256 then some c.toNat else none

/-- The list comprehension `[dbus.Byte(ord(c)) for c in message]` over a list
of characters: fails (raises) as soon as one character does not fit a byte. -/
def encodeList : List Char → Option (List Nat)
  | [] => some []
  | ch :: rest =>
    match byteOfChar ch with
    | none => none
    | some b =>
      match encodeList rest with
      | none => none
      | some bs => some (b :: bs)

/-- `[dbus.Byte(ord(c)) for c in message]` on a string. -/
def encodeMessage (message : String) : Option (List Nat) :=
  encodeList message.toList

/-- Decoding a byte sequence back to a string, one byte per character. -/
def decodeBytes (bs : List Nat) : String :=
  String.mk (bs.map Char.ofNat)

/-- `AlertLevelCharacteristic.send_notification`: if not notifying, a no-op
(state unchanged, zero events); otherwise encode the message one byte per
character and emit a single `PropertiesChanged` event on `Value` with an
empty invalidated list.  `none` models the exception raised by `dbus.Byte`
on a character above 255. -/
def AlertLevelCharacteristic.send_notification (c : AlertLevelCharacteristic)
    (message : String) :
    Option (AlertLevelCharacteristic × List PropertiesChangedEvent) :=
  if c.notifying = false then
    some (c, [])
  else
    match encodeMessage message with
    | none => none
    | some value =>
      some (c, [{ interface := GATT_CHARACTERISTIC_IFACE,
                  changed := [("Value", PropValue.bytes value)],
                  invalidated := [] }])

/-- The alert-level mapping inside `WriteValue`: `msg = "Unknown Alert"`
followed by the `if level == 0 / elif level == 1 / elif level == 2` chain. -/
def alertMsg (level : Nat) : String :=
  if level = 0 then "No Alert"
  else if level = 1 then "Mild Alert"
  else if level = 2 then "High Alert"
  else "Unknown Alert"

/-- Write options map (`a{sv}`), accepted but never inspected. -/
abbrev Options := List (String × PropValue)

/-- Result of one `WriteValue` call: the characteristic state afterwards, the
emitted `PropertiesChanged` events, and the trace of messages passed to
`send_notification` during the call. -/
structure WriteOutcome where
  char : AlertLevelCharacteristic
  events : List PropertiesChangedEvent
  sent : List String
  deriving DecidableEq, Repr

/-- `AlertLevelCharacteristic.WriteValue`: empty payload returns early
(no message, no notification attempt); otherwise `level = int(value[0])`
is mapped to a message and `send_notification(msg)` is called once.
`options` is kept in the signature as in the source although never read. -/
def AlertLevelCharacteristic.WriteValue (c : AlertLevelCharacteristic)
    (value : List Nat) (options : Options) : Option WriteOutcome :=
  if value = [] then
    some { char := c, events := [], sent := [] }
  else
    let level := value.headD 0
    let msg := alertMsg level
    match c.send_notification msg with
    | none => none
    | some (c2, evs) => some { char := c2, events := evs, sent := [msg] }

/-- `AlertLevelCharacteristic.StartNotify`: sets `notifying = True`. -/
def AlertLevelCharacteristic.StartNotify (c : AlertLevelCharacteristic) :
    AlertLevelCharacteristic :=
  { c with notifying := true }

/-- `AlertLevelCharacteristic.StopNotify`: sets `notifying = False`. -/
def AlertLevelCharacteristic.StopNotify (c : AlertLevelCharacteristic) :
    AlertLevelCharacteristic :=
  { c with notifying := false }

/-- State of `IASService` (FindMeServer.py): path, UUID, primary flag and the
ordered characteristic sequence. -/
structure IASService where
  path : String
  uuid : String
  primary : Bool
  characteristics : List AlertLevelCharacteristic
  deriving DecidableEq, Repr

/-- `IASService.__init__`: path is `/org/bluez/example/service{index}`,
primary, and one `AlertLevelCharacteristic(bus, 0, self)` is added. -/
def IASService.init (index : Nat) : IASService :=
  let path := "/org/bluez/example/service" ++ toString index
  { path := path,
    uuid := IAS_UUID,
    primary := true,
    characteristics := [AlertLevelCharacteristic.init 0 path] }

/-- `IASService.get_properties`: the service interface mapped to UUID,
primary flag and the list of characteristic object paths. -/
def IASService.get_properties (s : IASService) :
    List (String × List (String × PropValue)) :=
  [(GATT_SERVICE_IFACE,
    [("UUID", PropValue.str s.uuid),
     ("Primary", PropValue.bool s.primary),
     ("Characteristics",
      PropValue.paths (s.characteristics.map (fun c => c.path)))])]

/-- `IASService.get_characteristics`. -/
def IASService.get_characteristics (s : IASService) :
    List AlertLevelCharacteristic :=
  s.characteristics

/-- State of `Application` (FindMeServer.py): path and owned services. -/
structure Application where
  path : String
  services : List IASService
  deriving DecidableEq, Repr

/-- `Application.PATH`. -/
def Application.PATH : String := "/org/bluez/example/app"

/-- `Application.__init__`: path set to `PATH`, services empty. -/
def Application.init : Application :=
  { path := Application.PATH, services := [] }

/-- `Application.add_service`: appends a service. -/
def Application.add_service (app : Application) (service : IASService) :
    Application :=
  { app with services := app.services ++ [service] }

/-- `Application.GetManagedObjects`: depth-first flattening — for each
service, its path with its properties, then each of its characteristics'
path with its properties.  The Python dict is modelled as the association
list in insertion order (all paths are distinct). -/
def Application.GetManagedObjects (app : Application) :
    List (String × List (String × List (String × PropValue))) :=
  app.services.flatMap (fun service =>
    (service.path, service.get_properties) ::
      (service.get_characteristics.map
        (fun char => (char.path, char.get_properties))))

/-- The application built by `FindMeMain.main`: one `IASService(bus, 0)`
added to a fresh `Application`. -/
def mainApp : Application :=
  Application.init.add_service (IASService.init 0)

/-- One host-stack call into the characteristic. -/
inductive Op where
  | write (value : List Nat) (options : Options)
  | startNotify
  | stopNotify
  deriving DecidableEq, Repr

/-- One dispatch step: `write` runs `WriteValue`, the subscribe calls flip
`notifying` and emit nothing. -/
def step (c : AlertLevelCharacteristic) (op : Op) :
    Option (AlertLevelCharacteristic × List PropertiesChangedEvent) :=
  match op with
  | Op.write value options =>
    match c.WriteValue value options with
    | none => none
    | some r => some (r.char, r.events)
  | Op.startNotify => some (c.StartNotify, [])
  | Op.stopNotify => some (c.StopNotify, [])

/-- Run a sequence of calls, tagging every emitted event with the value of
`notifying` at the moment of emission. -/
def runTrace (c : AlertLevelCharacteristic) :
    List Op → Option (AlertLevelCharacteristic × List (Bool × PropertiesChangedEvent))
  | [] => some (c, [])
  | op :: ops =>
    match step c op with
    | none => none
    | some (c2, evs) =>
      match runTrace c2 ops with
      | none => none
      | some (cf, rest) => some (cf, evs.map (fun e => (c.notifying, e)) ++ rest)

/-! ## Helper lemmas -/

/-- Encoding succeeds, one byte per character, when every character fits. -/
lemma encodeList_eq_of_lt (l : List Char) (h : ∀ c ∈ l, c.toNat < 256) :
    encodeList l = some (l.map Char.toNat) := by
  induction l with
  | nil => rfl
  | cons ch rest ih =>
    have hch : ch.toNat < 256 := h ch (List.mem_cons_self ch rest)
    have hrest := ih (fun c hc => h c (List.mem_cons_of_mem ch hc))
    simp [encodeList, byteOfChar, hch, hrest]

/-- Every character of every alert message fits in a byte. -/
lemma alertMsg_chars_lt (b : Nat) : ∀ c ∈ (alertMsg b).toList, c.toNat < 256 := by
  unfold alertMsg
  split_ifs <;> decide

/-- `send_notification` while not notifying: no event, state unchanged. -/
lemma send_notification_not_notifying (c : AlertLevelCharacteristic)
    (h : c.notifying = false) (msg : String) :
    c.send_notification msg = some (c, []) := by
  simp [AlertLevelCharacteristic.send_notification, h]

/-- `send_notification` while notifying, on an encodable message: exactly one
`Value` event with an empty invalidated list. -/
lemma send_notification_notifying (c : AlertLevelCharacteristic)
    (h : c.notifying = true) (msg : String)
    (hmsg : ∀ ch ∈ msg.toList, ch.toNat < 256) :
    c.send_notification msg =
      some (c, [{ interface := GATT_CHARACTERISTIC_IFACE,
                  changed := [("Value", PropValue.bytes (msg.toList.map Char.toNat))],
                  invalidated := [] }]) := by
  have he : encodeList msg.toList = some (msg.toList.map Char.toNat) :=
    encodeList_eq_of_lt msg.toList hmsg
  simp only [String.toList] at he
  simp [AlertLevelCharacteristic.send_notification, h, encodeMessage,
        String.toList, he]

/-- `WriteValue` on an empty payload: early return, nothing happens. -/
lemma writeValue_nil (c : AlertLevelCharacteristic) (options : Options) :
    c.WriteValue [] options = some { char := c, events := [], sent := [] } :=
  rfl

/-- `WriteValue` on a non-empty payload: the first byte is mapped, exactly one
`send_notification` call is made, and an event is emitted iff notifying. -/
lemma writeValue_cons (c : AlertLevelCharacteristic) (b : Nat) (rest : List Nat)
    (options : Options) :
    c.WriteValue (b :: rest) options =
      some { char := c,
             events :=
               if c.notifying then
                 [{ interface := GATT_CHARACTERISTIC_IFACE,
                    changed :=
                      [("Value",
                        PropValue.bytes ((alertMsg b).toList.map Char.toNat))],
                    invalidated := [] }]
               else [],
             sent := [alertMsg b] } := by
  cases hn : c.notifying with
  | false =>
    simp [AlertLevelCharacteristic.WriteValue,
          send_notification_not_notifying c hn, hn]
  | true =>
    simp [AlertLevelCharacteristic.WriteValue,
          send_notification_notifying c hn _ (alertMsg_chars_lt b), hn]

/-- Events emitted by one `step` happen only while notifying, with an empty
invalidated list. -/
lemma step_events_ok (c : AlertLevelCharacteristic) (op : Op)
    (c2 : AlertLevelCharacteristic) (evs : List PropertiesChangedEvent)
    (h : step c op = some (c2, evs)) :
    ∀ e ∈ evs, c.notifying = true ∧ e.invalidated = [] := by
  cases op with
  | startNotify =>
    simp only [step, Option.some.injEq, Prod.mk.injEq] at h
    obtain ⟨-, rfl⟩ := h
    intro e he
    exact absurd he (List.not_mem_nil e)
  | stopNotify =>
    simp only [step, Option.some.injEq, Prod.mk.injEq] at h
    obtain ⟨-, rfl⟩ := h
    intro e he
    exact absurd he (List.not_mem_nil e)
  | write value options =>
    cases value with
    | nil =>
      simp only [step, writeValue_nil, Option.some.injEq, Prod.mk.injEq] at h
      obtain ⟨-, rfl⟩ := h
      intro e he
      exact absurd he (List.not_mem_nil e)
    | cons b rest =>
      simp only [step, writeValue_cons, Option.some.injEq, Prod.mk.injEq] at h
      obtain ⟨-, rfl⟩ := h
      cases hn : c.notifying with
      | false =>
        intro e he
        simp [hn] at he
      | true =>
        intro e he
        simp only [hn, if_true] at he
        rcases List.mem_singleton.mp he with rfl
        exact ⟨rfl, rfl⟩

/-- Every event in a `runTrace` from any start state is tagged `notifying =
true` and carries an empty invalidated list. -/
lemma runTrace_all_gated (c : AlertLevelCharacteristic) (ops : List Op)
    (cf : AlertLevelCharacteristic)
    (tagged : List (Bool × PropertiesChangedEvent))
    (h : runTrace c ops = some (cf, tagged)) :
    tagged.all (fun p => p.1 && p.2.invalidated.isEmpty) = true := by
  induction ops generalizing c cf tagged with
  | nil =>
    simp only [runTrace, Option.some.injEq, Prod.mk.injEq] at h
    obtain ⟨-, rfl⟩ := h
    rfl
  | cons op ops ih =>
    simp only [runTrace] at h
    split at h
    · exact Option.noConfusion h
    · rename_i c2 evs hs
      split at h
      · exact Option.noConfusion h
      · rename_i cf2 rest hr
        rw [Option.some.injEq, Prod.mk.injEq] at h
        obtain ⟨rfl, rfl⟩ := h
        rw [List.all_append, Bool.and_eq_true]
        refine ⟨?_, ih c2 cf2 rest hr⟩
        rw [List.all_eq_true]
        intro p hp
        rw [List.mem_map] at hp
        obtain ⟨e, he, rfl⟩ := hp
        obtain ⟨hn, hi⟩ := step_events_ok c op c2 evs hs e he
        simp [hn, hi]

/-! ## Claim theorems -/

/-- C1: For every non-empty written payload, `WriteValue` maps the first byte
to an alert message by exact value: 0 to "No Alert", 1 to "Mild Alert", 2 to
"High Alert", every other byte value to "Unknown Alert"; bytes after the
first never influence the mapped message (the result does not mention
`rest`). -/
theorem writeValue_maps_first_byte (c : AlertLevelCharacteristic) (b : Nat)
    (rest : List Nat) (options : Options) (hb : b < 256) :
    (c.WriteValue (b :: rest) options).map WriteOutcome.sent =
      some [if b = 0 then "No Alert"
            else if b = 1 then "Mild Alert"
            else if b = 2 then "High Alert"
            else "Unknown Alert"] := by
  rw [writeValue_cons]
  rfl

/-- Witness for C1 at payload `[5, 7]`. -/
theorem writeValue_maps_first_byte_witness :
    (((AlertLevelCharacteristic.init 0 "/org/bluez/example/service0").WriteValue
        (5 :: [7]) []).map WriteOutcome.sent) =
      some [if 5 = 0 then "No Alert"
            else if 5 = 1 then "Mild Alert"
            else if 5 = 2 then "High Alert"
            else "Unknown Alert"] :=
  writeValue_maps_first_byte (AlertLevelCharacteristic.init 0
    "/org/bluez/example/service0") 5 [7] [] (by decide)

/-- C2 counterexample: for the message consisting of the single character
with code point 256, `send_notification` while notifying raises inside
`dbus.Byte` (modelled `none`) instead of emitting exactly one event whose
bytes decode back to the message. -/
theorem send_notification_nonbyte_message_counterexample :
    ((AlertLevelCharacteristic.init 0
        "/org/bluez/example/service0").StartNotify).send_notification
      (String.mk [Char.ofNat 256]) = none := by
  decide

/-- C2 (amended): for every message whose characters all fit in one byte,
`send_notification` while not notifying emits zero events and leaves state
unchanged; while notifying it emits exactly one event whose single changed
property `Value` decodes byte-for-byte back to the message. -/
theorem send_notification_gating (c : AlertLevelCharacteristic) (msg : String)
    (hmsg : ∀ ch ∈ msg.toList, ch.toNat < 256) :
    (c.notifying = false → c.send_notification msg = some (c, [])) ∧
    (c.notifying = true →
      c.send_notification msg =
        some (c, [{ interface := GATT_CHARACTERISTIC_IFACE,
                    changed := [("Value",
                      PropValue.bytes (msg.toList.map Char.toNat))],
                    invalidated := [] }]) ∧
      decodeBytes (msg.toList.map Char.toNat) = msg) := by
  refine ⟨fun h => send_notification_not_notifying c h msg, fun h => ?_⟩
  refine ⟨send_notification_notifying c h msg hmsg, ?_⟩
  have h1 : (msg.toList.map Char.toNat).map Char.ofNat = msg.toList := by
    rw [List.map_map]
    simp [Function.comp_def, Char.ofNat_toNat]
  unfold decodeBytes
  rw [h1]
  cases msg
  rfl

/-- Witness for C2 (amended) at message "Hi" in the notifying state. -/
theorem send_notification_gating_witness :
    ((AlertLevelCharacteristic.init 0
        "/org/bluez/example/service0").StartNotify).send_notification "Hi" =
      some ((AlertLevelCharacteristic.init 0
              "/org/bluez/example/service0").StartNotify,
        [{ interface := GATT_CHARACTERISTIC_IFACE,
           changed := [("Value",
             PropValue.bytes ("Hi".toList.map Char.toNat))],
           invalidated := [] }]) ∧
    decodeBytes ("Hi".toList.map Char.toNat) = "Hi" :=
  (send_notification_gating
    ((AlertLevelCharacteristic.init 0
      "/org/bluez/example/service0").StartNotify) "Hi" (by decide)).2 rfl

/-- C3: for the application built by `main` (one service with one
characteristic), `GetManagedObjects` returns exactly two entries, depth-first:
the service path `/org/bluez/example/service0` with its uuid, primary flag
and characteristic path list, then the characteristic path
`.../service0/char0` with its uuid, owning service path, flags and
notifying flag. -/
theorem getManagedObjects_one_service_one_char :
    mainApp.GetManagedObjects =
      [("/org/bluez/example/service0",
        [(GATT_SERVICE_IFACE,
          [("UUID", PropValue.str IAS_UUID),
           ("Primary", PropValue.bool true),
           ("Characteristics",
            PropValue.paths ["/org/bluez/example/service0/char0"])])]),
       ("/org/bluez/example/service0/char0",
        [(GATT_CHARACTERISTIC_IFACE,
          [("UUID", PropValue.str ALERT_LEVEL_UUID),
           ("Service", PropValue.path "/org/bluez/example/service0"),
           ("Flags", PropValue.strs ["write-without-response", "notify"]),
           ("Notifying", PropValue.bool false)])])] := by
  rfl

/-- C4: for every options map, `WriteValue` on an empty payload is a
recoverable no-op: it returns normally (`some`), maps no message, makes no
`send_notification` call and leaves the state unchanged. -/
theorem writeValue_empty_noop (c : AlertLevelCharacteristic)
    (options : Options) :
    c.WriteValue [] options = some { char := c, events := [], sent := [] } :=
  writeValue_nil c options

/-- C5: `StartNotify` sets notifying to true, `StopNotify` sets it to false,
and both are idempotent: a second consecutive call leaves the state exactly
as after the first. -/
theorem startStopNotify_idempotent (c : AlertLevelCharacteristic) :
    (c.StartNotify).notifying = true ∧
    c.StartNotify.StartNotify = c.StartNotify ∧
    (c.StopNotify).notifying = false ∧
    c.StopNotify.StopNotify = c.StopNotify :=
  ⟨rfl, rfl, rfl, rfl⟩

/-- C6: after every write with a non-empty payload, `send_notification` is
invoked exactly once with the mapped message, from any starting state
(in particular regardless of the mapped value or any previous write). -/
theorem writeValue_always_notifies_once (c : AlertLevelCharacteristic)
    (b : Nat) (rest : List Nat) (options : Options) :
    (c.WriteValue (b :: rest) options).map WriteOutcome.sent =
      some [alertMsg b] := by
  rw [writeValue_cons]
  rfl

/-- C7: over every sequence of `WriteValue`/`StartNotify`/`StopNotify` calls
from a freshly constructed characteristic (notifying initialized false),
every emitted `PropertiesChanged` event is emitted while notifying is true
and carries an empty invalidated list. -/
theorem notify_gated_invariant (sp : String) (ops : List Op)
    (cf : AlertLevelCharacteristic)
    (tagged : List (Bool × PropertiesChangedEvent))
    (h : runTrace (AlertLevelCharacteristic.init 0 sp) ops =
      some (cf, tagged)) :
    tagged.all (fun p => p.1 && p.2.invalidated.isEmpty) = true :=
  runTrace_all_gated (AlertLevelCharacteristic.init 0 sp) ops cf tagged h

/-- Witness for C7 on the trace start-notify, write `[1]`, stop-notify,
write `[2]`: exactly one event, tagged notifying = true, invalidated
empty. -/
theorem notify_gated_invariant_witness :
    (([(true, { interface := GATT_CHARACTERISTIC_IFACE,
                changed := [("Value",
                  PropValue.bytes [77, 105, 108, 100, 32, 65, 108, 101, 114,
                    116])],
                invalidated := [] })] :
        List (Bool × PropertiesChangedEvent)).all
      (fun p => p.1 && p.2.invalidated.isEmpty)) = true :=
  notify_gated_invariant "/org/bluez/example/service0"
    [Op.startNotify, Op.write [1] [], Op.stopNotify, Op.write [2] []]
    (AlertLevelCharacteristic.init 0 "/org/bluez/example/service0")
    [(true, { interface := GATT_CHARACTERISTIC_IFACE,
              changed := [("Value",
                PropValue.bytes [77, 105, 108, 100, 32, 65, 108, 101, 114,
                  116])],
              invalidated := [] })]
    (by decide)

/-- C8: `WriteValue` is a self-transition: for every payload and options the
characteristic record afterwards equals the one before (so notifying, uuid,
flags, path and owning service path are all unchanged), while `StartNotify`
and `StopNotify` change only the notifying field. -/
theorem writeValue_frame (c : AlertLevelCharacteristic) (value : List Nat)
    (options : Options) :
    (c.WriteValue value options).map WriteOutcome.char = some c ∧
    c.StartNotify = { c with notifying := true } ∧
    c.StopNotify = { c with notifying := false } := by
  refine ⟨?_, rfl, rfl⟩
  cases value with
  | nil => rfl
  | cons b rest =>
    rw [writeValue_cons]
    rfl

/-- C9: noninterference in the options argument: two `WriteValue` runs from
the same state with the same payload but arbitrary different options maps
yield identical outcomes (result, emitted events and final state). -/
theorem writeValue_options_noninterference (c : AlertLevelCharacteristic)
    (value : List Nat) (o1 o2 : Options) :
    c.WriteValue value o1 = c.WriteValue value o2 :=
  rfl

/-- C10: every message `WriteValue` passes to `send_notification` is one of
the four fixed alert strings, and its per-character byte encoding is
defined (all characters fit in one byte), so the encoding failure case is
unreachable through `WriteValue`. -/
theorem writeValue_sent_messages_safe (c : AlertLevelCharacteristic)
    (value : List Nat) (options : Options) (r : WriteOutcome)
    (h : c.WriteValue value options = some r) :
    r.sent.all (fun msg =>
      (["No Alert", "Mild Alert", "High Alert",
        "Unknown Alert"].contains msg) && (encodeMessage msg).isSome) =
      true := by
  cases value with
  | nil =>
    rw [writeValue_nil, Option.some.injEq] at h
    subst h
    rfl
  | cons b rest =>
    rw [writeValue_cons, Option.some.injEq] at h
    subst h
    show (List.all [alertMsg b] _) = true
    unfold alertMsg
    split_ifs <;> decide

/-- Witness for C10 at payload `[1]` from the initial state. -/
theorem writeValue_sent_messages_safe_witness :
    (({ char := AlertLevelCharacteristic.init 0
          "/org/bluez/example/service0",
        events := [], sent := ["Mild Alert"] } : WriteOutcome).sent.all
      (fun msg =>
        (["No Alert", "Mild Alert", "High Alert",
          "Unknown Alert"].contains msg) && (encodeMessage msg).isSome)) =
      true :=
  writeValue_sent_messages_safe
    (AlertLevelCharacteristic.init 0 "/org/bluez/example/service0") [1] []
    { char := AlertLevelCharacteristic.init 0 "/org/bluez/example/service0",
      events := [], sent := ["Mild Alert"] } (by decide)

end FindMe
